import Mathlib

/-!
A shallow embedding of the validation layer of drfpasswordless
(`drfpasswordless/serializers.py`) together with theorems about the
request-validation rules it implements.

Modelling conventions:
* Token keys are modelled as lists of decimal digits (the spec's data model:
  `key` is a fixed-length numeric string).  Key comparison is list equality,
  which is exactly string equality on digit strings (same digits, same
  length, no numeric coercion).  Python `int(value)` on such a string is the
  base-10 fold `intOfKey`.
* Django ORM `Model.objects.get(...)` is modelled by `djangoGet`: a filter
  over the in-memory table that returns the unique match, the model's
  `DoesNotExist` exception when there is none, and `MultipleObjectsReturned`
  when there are several.
* Python exceptions are the error side of `Except PyErr`.  DRF
  `ValidationError(msg)` carries a `Msg`; `AttributeError` / `IndexError`
  model the corresponding Python runtime errors.  `try/except` blocks are
  modelled by pattern matching on the error of the wrapped computation.
* Error-message strings are modelled by the inductive `Msg`, one constructor
  per distinct message string in the source, so that equality of observed
  messages is equality in `Msg`.
* Time is in seconds (`Nat`); `(now - created_at).total_seconds() <= ttl`
  is truncated subtraction `now - createdAt <= ttl`, which agrees with the
  Python comparison also for tokens stamped in the future.
* The field-level checks of the alias fields (`EmailField` format, the
  17-character bound on `mobile`) are elided; no claim depends on them and
  all concrete inputs used below satisfy them.
-/

/-- Token purposes, `CallbackToken.TOKEN_TYPE_{AUTH,VERIFY,CHANGE}`. -/
inductive TokenType where
  | AUTH
  | VERIFY
  | CHANGE
deriving DecidableEq, Repr

/-- Alias kinds.  The configured field names
`PASSWORDLESS_USER_EMAIL_FIELD_NAME` / `PASSWORDLESS_USER_MOBILE_FIELD_NAME`
are modelled by the kind itself (the configuration maps each kind to one
field name). -/
inductive AliasKind where
  | EMAIL
  | MOBILE
deriving DecidableEq, Repr

/-- User rows of the user directory (the custom user model).  `email` /
`mobile` are the configured alias fields, `none` when unset. -/
structure User where
  id : Nat
  email : Option String
  mobile : Option String
  is_active : Bool
  emailVerified : Bool
  mobileVerified : Bool
  hasUsablePassword : Bool
deriving DecidableEq, Repr

/-- Rows of the `CallbackToken` table. -/
structure CallbackToken where
  userId : Nat
  key : List Nat
  ttype : TokenType
  is_active : Bool
  toAlias : String
  toAliasType : AliasKind
  createdAt : Nat
deriving DecidableEq, Repr

/-- The process-wide `api_settings` options this layer reads. -/
structure Settings where
  testMode : Bool
  testCodeIncorrect : List Nat
  tokenLength : Nat
  tokenExpireTime : Nat
  registerNewUsers : Bool
  markEmailVerified : Bool
  markMobileVerified : Bool
  mobileStandardise : Bool
deriving DecidableEq, Repr

/-- The mutable world: the user directory, the `CallbackToken` store, the
clock, and one flag abstracting persistence success of the alias-mutating
utilities (spec section 4.4: they return false only on an underlying
persistence failure). -/
structure W where
  users : List User
  tokens : List CallbackToken
  now : Nat
  persistOk : Bool
deriving DecidableEq, Repr

/-- A validated token-submission payload: the optional `email` and `mobile`
fields and the required `token` field. -/
structure Payload where
  email : Option String
  mobile : Option String
  token : List Nat
deriving DecidableEq, Repr

/-- One constructor per distinct user-visible message string produced by the
validation layer (translation markers elided). -/
inductive Msg where
  | tokenDigits (n : Nat)
  | tokenNotValid
  | incorrectTokenFromSettings
  | userDisabled
  | errorValidatingAlias
  | invalidToken
  | invalidAliasParams
  | invalidUserAliasParams
  | couldNotVerify
  | couldNotVerifyNoToken
  | couldNotVerifyBadUser
  | tokenInvalidTryLater
  | alreadySame (k : AliasKind)
  | missingAlias (k : AliasKind)
  | problemWithRequest
  | phoneFormat
  | invalidInput
  | noAccount
  | doesNotHaveAlias (k : AliasKind)
deriving DecidableEq, Repr

/-- Python exceptions raised by this layer. -/
inductive PyErr where
  | validationError (m : Msg)
  | userDoesNotExist
  | tokenDoesNotExist
  | multipleObjectsReturned
  | attributeError
  | indexError
deriving DecidableEq, Repr

/-- Django `Model.objects.get`: the unique row matching the filter,
`DoesNotExist` (the supplied `missing` error) when none matches,
`MultipleObjectsReturned` when several do. -/
def djangoGet {α : Type} (p : α → Bool) (xs : List α) (missing : PyErr) :
    Except PyErr α :=
  match xs.filter p with
  | [] => .error missing
  | [x] => .ok x
  | _ :: _ :: _ => .error .multipleObjectsReturned

/-- Lower-casing, for Django `__iexact` comparisons. -/
def strLower (s : String) : String :=
  ⟨s.data.map Char.toLower⟩

/-- The value of the alias field named by `k` on a user row. -/
def aliasValue (k : AliasKind) (u : User) : Option String :=
  match k with
  | .EMAIL => u.email
  | .MOBILE => u.mobile

/-- Django `field__iexact=a` on the alias field named by `k` (a NULL field
matches nothing). -/
def userAliasMatches (k : AliasKind) (a : String) (u : User) : Bool :=
  match aliasValue k u with
  | some v => strLower v == strLower a
  | none => false

/-- Python `int(value)` on a digit string, as a base-10 fold. -/
def intOfKey (key : List Nat) : Nat :=
  key.foldl (fun acc d => 10 * acc + d) 0

/-- Characters removed by `clear_mobile_number`: whitespace (Python
`str.split()`), hyphens and parentheses. -/
def strippedChar (c : Char) : Bool :=
  c == ' ' || c == '\t' || c == '\n' || c == '\r' ||
  c == '\x0b' || c == '\x0c' || c == '-' || c == '(' || c == ')'

/-- The character-removal part of `clear_mobile_number` (lines 22-26). -/
def stripChars (s : String) : String :=
  ⟨s.data.filter (fun c => !strippedChar c)⟩

/-- Lines 21-29, `clear_mobile_number`: remove whitespace, hyphens and
parentheses, then prepend `+` when the first character is not already `+`.
On a string that becomes empty, the subscript `mobile[0]` raises
`IndexError`. -/
def clear_mobile_number (mobile : String) : Except PyErr String :=
  let m := stripChars mobile
  match m.data with
  | [] => .error .indexError
  | c :: _ => .ok (if c != '+' then "+" ++ m else m)

/-- The regex `^\+[1-9]\d{1,14}$` used by the phone `RegexValidator`. -/
def e164 (s : String) : Bool :=
  match s.data with
  | '+' :: d :: rest =>
      ('1' ≤ d && d ≤ '9') && rest.all Char.isDigit &&
      decide (1 ≤ rest.length) && decide (rest.length ≤ 14)
  | _ => false

/-- Modelled from the spec: `validate_token_age` lives in
`drfpasswordless/utils.py`, which is not part of the excerpt; only its call
site (`token_age_validator`, lines 315-327) is.  Spec section 4.3 steps 1
and 3 with section 4.1: look up the active token for the submitted key in
the store and report freshness, `now - created_at <= ttl_seconds`; section
4.1 demands the check mutate nothing.  No active token (or an ambiguous
key) is not valid. -/
def validate_token_age (st : Settings) (w : W) (key : List Nat) : Bool :=
  match w.tokens.filter (fun t => t.is_active && t.key == key) with
  | [t] => w.now - t.createdAt ≤ st.tokenExpireTime
  | _ => false

/-- Sets the verified flag of the alias named by `k`. -/
def markVerified (k : AliasKind) (u : User) : User :=
  match k with
  | .EMAIL => { u with emailVerified := true }
  | .MOBILE => { u with mobileVerified := true }

/-- Modelled from the spec: `verify_user_alias` (in the absent
`drfpasswordless/utils.py`).  Spec section 4.4: marks the alias named by
`token.to_alias_type` on the user as verified, idempotently; returns false
only on an underlying persistence failure, modelled by the `persistOk`
flag. -/
def verify_user_alias (w : W) (u : User) (t : CallbackToken) : Bool × W :=
  if w.persistOk then
    (true,
     { w with
       users := w.users.map (fun v =>
         if v.id == u.id then markVerified t.toAliasType v else v) })
  else (false, w)

/-- Clears the alias field named by `k`. -/
def clearAlias (k : AliasKind) (u : User) : User :=
  match k with
  | .EMAIL => { u with email := none }
  | .MOBILE => { u with mobile := none }

/-- Sets the alias field named by `k` to `a`. -/
def setAlias (k : AliasKind) (a : String) (u : User) : User :=
  match k with
  | .EMAIL => { u with email := some a }
  | .MOBILE => { u with mobile := some a }

/-- Modelled from the spec: `change_user_alias` (in the absent
`drfpasswordless/utils.py`).  Spec section 4.4: reassigns the user's alias
of `token.to_alias_type` to `token.to_alias`, first clearing that alias
value from every user in `prior_holders`; all-or-nothing; returns false on
a persistence failure (flag `persistOk`) with no partial update. -/
def change_user_alias (w : W) (u : User) (t : CallbackToken)
    (priorHolders : List User) : Bool × W :=
  if w.persistOk then
    (true,
     { w with
       users := w.users.map (fun v =>
         let v1 := if priorHolders.any (fun p => p.id == v.id) then
                     clearAlias t.toAliasType v
                   else v
         if v1.id == u.id then setAlias t.toAliasType t.toAlias v1 else v1) })
  else (false, w)

/-- The field stage of the token-submission serializers: the `TokenField`
with `min_length = max_length = TOKEN_LENGTH` and
`validators=[token_age_validator]` (lines 341-345 with 315-327).  In test
mode `token_age_validator` only returns `True`/`False` and a DRF validator
rejects only by raising, so it never rejects there; outside test mode it
raises when `validate_token_age` is false. -/
def tokenFieldStage (st : Settings) (w : W) (key : List Nat) :
    Except PyErr Unit :=
  if key.length != st.tokenLength then
    .error (.validationError (.tokenDigits st.tokenLength))
  else if st.testMode then
    .ok ()
  else if validate_token_age st w key then
    .ok ()
  else
    .error (.validationError .tokenNotValid)

/-- Lines 347-362, `AbstractBaseCallbackTokenSerializer.validate_alias`:
both aliases present or neither present raises `ValidationError()` (the
bare DRF default detail); exactly one present returns the configured field
name of that alias kind paired with the value. -/
def validate_alias (p : Payload) : Except PyErr (AliasKind × String) :=
  match p.email, p.mobile with
  | some _, some _ => .error (.validationError .invalidInput)
  | none, none => .error (.validationError .invalidInput)
  | some e, none => .ok (.EMAIL, e)
  | none, some m => .ok (.MOBILE, m)

/-- Lines 364-377, `AbstractBaseCallbackTokenSerializer.validate`: when a
mobile is present, standardise it if configured, then require the regex
`^\+[1-9]\d{1,14}$` on the (possibly standardised) value. -/
def abstractCallbackValidate (st : Settings) (p : Payload) :
    Except PyErr Payload :=
  match p.mobile with
  | none => .ok p
  | some m =>
    if st.mobileStandardise then
      match clear_mobile_number m with
      | .error e => .error e
      | .ok m2 =>
        if e164 m2 then .ok { p with mobile := some m2 }
        else .error (.validationError .phoneFormat)
    else
      if e164 m then .ok p else .error (.validationError .phoneFormat)

/-- The tail of `CallbackTokenAuthSerializer.validate` (lines 415-439):
ownership check, activity check, optional alias-verification marking
(refetching the user by primary key), then success. -/
def authAfterToken (st : Settings) (w : W) (user : User)
    (token : CallbackToken) : Except PyErr User × W :=
  if token.userId == user.id then
    if !user.is_active then
      (.error (.validationError .userDisabled), w)
    else if st.markEmailVerified || st.markMobileVerified then
      match djangoGet (fun v => v.id == token.userId) w.users
          .userDoesNotExist with
      | .error e => (.error e, w)
      | .ok user2 =>
        let r := verify_user_alias w user2 token
        if r.1 then (.ok user2, r.2)
        else (.error (.validationError .errorValidatingAlias), r.2)
    else
      (.ok user, w)
  else
    (.error (.validationError .invalidToken), w)

/-- The body of `CallbackTokenAuthSerializer.validate` (lines 382-439),
before the `except` clauses: alias normalisation, alias resolution, user
lookup by `__iexact` alias, then the token: in test mode a denylist check
followed by an unsaved synthesized token, otherwise a store lookup on
(user, key, AUTH type, active). -/
def authValidateBody (st : Settings) (w : W) (p : Payload) :
    Except PyErr User × W :=
  match abstractCallbackValidate st p with
  | .error e => (.error e, w)
  | .ok p1 =>
  match validate_alias p1 with
  | .error e => (.error e, w)
  | .ok (kind, aliasVal) =>
  match djangoGet (userAliasMatches kind aliasVal) w.users .userDoesNotExist with
  | .error e => (.error e, w)
  | .ok user =>
  if st.testMode then
    if st.testCodeIncorrect.contains (intOfKey p1.token) then
      (.error (.validationError .incorrectTokenFromSettings), w)
    else
      authAfterToken st w user
        { userId := user.id, key := p1.token, ttype := .AUTH,
          is_active := true, toAlias := aliasVal, toAliasType := kind,
          createdAt := w.now }
  else
    match djangoGet
        (fun t => t.userId == user.id && t.key == p1.token &&
                  t.ttype == TokenType.AUTH && t.is_active)
        w.tokens .tokenDoesNotExist with
    | .error e => (.error e, w)
    | .ok token => authAfterToken st w user token

/-- Lines 440-448, the `except` clauses of
`CallbackTokenAuthSerializer.validate`: `CallbackToken.DoesNotExist` and
any `ValidationError` collapse to the same generic message,
`User.DoesNotExist` to a different one; other exceptions propagate. -/
def authValidate (st : Settings) (w : W) (p : Payload) :
    Except PyErr User × W :=
  match authValidateBody st w p with
  | (.error .tokenDoesNotExist, w1) =>
      (.error (.validationError .invalidAliasParams), w1)
  | (.error .userDoesNotExist, w1) =>
      (.error (.validationError .invalidUserAliasParams), w1)
  | (.error (.validationError _), w1) =>
      (.error (.validationError .invalidAliasParams), w1)
  | r => r

/-- A full AUTH token submission: DRF runs the field stage (token length
and `token_age_validator`) before the serializer-level `validate`. -/
def runAuth (st : Settings) (w : W) (p : Payload) : Except PyErr User × W :=
  match tokenFieldStage st w p.token with
  | .error e => (.error e, w)
  | .ok _ => authValidate st w p

/-- The tail of `CallbackTokenVerificationSerializer.validate` (lines
490-501): on ownership match, `verify_user_alias` is called and a `False`
result is only logged; the user is returned either way.  On mismatch the
final generic raise fires. -/
def verifyAfterToken (w : W) (user : User) (token : CallbackToken) :
    Except PyErr User × W :=
  if token.userId == user.id then
    let r := verify_user_alias w user token
    (.ok user, r.2)
  else
    (.error (.validationError .tokenInvalidTryLater), w)

/-- The body of `CallbackTokenVerificationSerializer.validate` (lines
457-497): alias normalisation and resolution, user lookup by
`id=user_id` together with the `__iexact` alias, then the token (test-mode
denylist and synthesized token, or store lookup on (user, key, VERIFY,
active)). -/
def verifyValidateBody (st : Settings) (w : W) (userId : Option Nat)
    (p : Payload) : Except PyErr User × W :=
  match abstractCallbackValidate st p with
  | .error e => (.error e, w)
  | .ok p1 =>
  match validate_alias p1 with
  | .error e => (.error e, w)
  | .ok (kind, aliasVal) =>
  match djangoGet
      (fun v => userId == some v.id && userAliasMatches kind aliasVal v)
      w.users .userDoesNotExist with
  | .error e => (.error e, w)
  | .ok user =>
  if st.testMode then
    if st.testCodeIncorrect.contains (intOfKey p1.token) then
      (.error (.validationError .incorrectTokenFromSettings), w)
    else
      verifyAfterToken w user
        { userId := user.id, key := p1.token, ttype := .VERIFY,
          is_active := true, toAlias := aliasVal, toAliasType := kind,
          createdAt := w.now }
  else
    match djangoGet
        (fun t => t.userId == user.id && t.key == p1.token &&
                  t.ttype == TokenType.VERIFY && t.is_active)
        w.tokens .tokenDoesNotExist with
    | .error e => (.error e, w)
    | .ok token => verifyAfterToken w user token

/-- Lines 503-516, the `except` clauses of
`CallbackTokenVerificationSerializer.validate`: both `DoesNotExist`
exceptions set the same message and fall through to the final raise; a
`ValidationError` raised inside the body is not caught and propagates
unchanged (the serializer has no `except ValidationError`). -/
def verifyValidate (st : Settings) (w : W) (userId : Option Nat)
    (p : Payload) : Except PyErr User × W :=
  match verifyValidateBody st w userId p with
  | (.error .tokenDoesNotExist, w1) =>
      (.error (.validationError .couldNotVerify), w1)
  | (.error .userDoesNotExist, w1) =>
      (.error (.validationError .couldNotVerify), w1)
  | r => r

/-- A full VERIFY token submission, field stage included. -/
def runVerify (st : Settings) (w : W) (userId : Option Nat) (p : Payload) :
    Except PyErr User × W :=
  match tokenFieldStage st w p.token with
  | .error e => (.error e, w)
  | .ok _ => verifyValidate st w userId p

/-- The tail of `CallbackTokenChangeSerializer.validate` (lines 563-578):
when the token belongs to the user and is scoped to the submitted alias,
`change_user_alias` over the current holders of the alias and then
`verify_user_alias` run (Python `and`, short-circuiting); a `False` result
is only logged and the user is returned.  Otherwise the generic raise
fires. -/
def changeAfterToken (w : W) (user : User) (kind : AliasKind)
    (aliasVal : String) (token : CallbackToken) : Except PyErr User × W :=
  if token.userId == user.id && token.toAlias == aliasVal then
    let olds := w.users.filter (userAliasMatches kind aliasVal)
    let r1 := change_user_alias w user token olds
    let w2 := if r1.1 then (verify_user_alias r1.2 user token).2 else r1.2
    (.ok user, w2)
  else
    (.error (.validationError .tokenInvalidTryLater), w)

/-- The body of `CallbackTokenChangeSerializer.validate` (lines 525-578):
alias normalisation and resolution, user lookup by `id=user_id` alone, the
no-op guard (submitted alias equal to the user's current field raises with
a specific message, uncaught below), then the token (test-mode denylist and
synthesized token, or store lookup on (user, key, CHANGE, active)). -/
def changeValidateBody (st : Settings) (w : W) (userId : Option Nat)
    (p : Payload) : Except PyErr User × W :=
  match abstractCallbackValidate st p with
  | .error e => (.error e, w)
  | .ok p1 =>
  match validate_alias p1 with
  | .error e => (.error e, w)
  | .ok (kind, aliasVal) =>
  match djangoGet (fun v => userId == some v.id) w.users
      .userDoesNotExist with
  | .error e => (.error e, w)
  | .ok user =>
  if aliasValue kind user == some aliasVal then
    (.error (.validationError (.alreadySame kind)), w)
  else if st.testMode then
    if st.testCodeIncorrect.contains (intOfKey p1.token) then
      (.error (.validationError .incorrectTokenFromSettings), w)
    else
      changeAfterToken w user kind aliasVal
        { userId := user.id, key := p1.token, ttype := .CHANGE,
          is_active := true, toAlias := aliasVal, toAliasType := kind,
          createdAt := w.now }
  else
    match djangoGet
        (fun t => t.userId == user.id && t.key == p1.token &&
                  t.ttype == TokenType.CHANGE && t.is_active)
        w.tokens .tokenDoesNotExist with
    | .error e => (.error e, w)
    | .ok token => changeAfterToken w user kind aliasVal token

/-- Lines 580-593, the `except` clauses of
`CallbackTokenChangeSerializer.validate`: the two `DoesNotExist`
exceptions map to distinct messages; a `ValidationError` (including the
no-op guard) propagates unchanged. -/
def changeValidate (st : Settings) (w : W) (userId : Option Nat)
    (p : Payload) : Except PyErr User × W :=
  match changeValidateBody st w userId p with
  | (.error .tokenDoesNotExist, w1) =>
      (.error (.validationError .couldNotVerifyNoToken), w1)
  | (.error .userDoesNotExist, w1) =>
      (.error (.validationError .couldNotVerifyBadUser), w1)
  | r => r

/-- A full CHANGE token submission, field stage included. -/
def runChange (st : Settings) (w : W) (userId : Option Nat) (p : Payload) :
    Except PyErr User × W :=
  match tokenFieldStage st w p.token with
  | .error e => (.error e, w)
  | .ok _ => changeValidate st w userId p

/-- A fresh primary key for `User.objects.create`. -/
def freshId (users : List User) : Nat :=
  (users.map User.id).foldr max 0 + 1

/-- The user row created by `User.objects.create(**{field: alias})`
followed by `set_unusable_password()` (lines 76-78).  Django defaults the
activity flag to true and the verified flags to false. -/
def newUser (uid : Nat) (kind : AliasKind) (aliasVal : String) : User :=
  setAlias kind aliasVal
    { id := uid, email := none, mobile := none, is_active := true,
      emailVerified := false, mobileVerified := false,
      hasUsablePassword := false }

/-- The activity gate shared by both branches of
`AbstractBaseAliasAuthenticationSerializer.validate` (lines 88-96 for a
found or created user). -/
def aliasAuthAfterUser (u : User) (w : W) : Except PyErr User × W :=
  if !u.is_active then (.error (.validationError .userDisabled), w)
  else (.ok u, w)

/-- Lines 62-102, `AbstractBaseAliasAuthenticationSerializer.validate`:
with an alias present, look the user up case-insensitively; when
`PASSWORDLESS_REGISTER_NEW_USERS` is on, a missing user is created holding
the alias with an unusable password, otherwise a missing user is a
rejection; an inactive user is rejected. -/
def aliasAuthValidate (st : Settings) (w : W) (kind : AliasKind)
    (aliasVal : Option String) : Except PyErr User × W :=
  match aliasVal with
  | none => (.error (.validationError (.missingAlias kind)), w)
  | some a =>
    match w.users.filter (userAliasMatches kind a) with
    | [u] => aliasAuthAfterUser u w
    | [] =>
      if st.registerNewUsers then
        let u := newUser (freshId w.users) kind a
        aliasAuthAfterUser u { w with users := w.users ++ [u] }
      else
        (.error (.validationError .noAccount), w)
    | _ :: _ :: _ => (.error .multipleObjectsReturned, w)

/-- Lines 235-271, `AbstractBaseAliasChangeSerializer.validate`, for a
context request carrying `user` (`none` models a request whose `user`
attribute is falsy).  For an active user the code reaches
`alias = request.get(self.alias_type)` where `request` is the DRF/Django
HTTP request object from `self.context`; neither class defines `get`, so
the attribute access raises `AttributeError` before any comparison with
the user's current alias (the latent defect flagged in the spec, section
9).  The `hasattr(user, self.alias_field_name)` test is true here because
the configured alias fields exist on the user model. -/
def changeRequestValidate (user : Option User) (kind : AliasKind) :
    Except PyErr User :=
  match kind, user with
  | _, none => .error (.validationError .problemWithRequest)
  | _, some u =>
    if !u.is_active then .error (.validationError .userDisabled)
    else .error .attributeError

/-- The normalisation of a mobile number as the spec words it (section
4.2): strip whitespace, hyphens and parentheses; if the result does not
start with `+`, prepend `+`.  Stated separately from the source's
`clear_mobile_number` so the two can be compared on nonempty results. -/
def normalizeMobileSpec (m : String) : String :=
  let s := stripChars m
  if s.data.head? = some '+' then s else "+" ++ s

/-- Example data: a registered, active user holding the email alias. -/
def exUser : User :=
  { id := 1, email := some "a@a.com", mobile := none, is_active := true,
    emailVerified := false, mobileVerified := false,
    hasUsablePassword := true }

/-- Example data: an active, fresh AUTH callback token for `exUser`. -/
def exTok : CallbackToken :=
  { userId := 1, key := [1, 2, 3, 4, 5, 6], ttype := .AUTH,
    is_active := true, toAlias := "a@a.com", toAliasType := .EMAIL,
    createdAt := 0 }

/-- Example data: production settings (test mode off), 6-digit tokens, a
10-minute TTL, no verification marking. -/
def exS : Settings :=
  { testMode := false, testCodeIncorrect := [0], tokenLength := 6,
    tokenExpireTime := 600, registerNewUsers := true,
    markEmailVerified := false, markMobileVerified := false,
    mobileStandardise := true }

/-- Example data: a world holding `exUser` and `exTok`, 10 seconds after
issuance. -/
def exW : W :=
  { users := [exUser], tokens := [exTok], now := 10, persistOk := true }

/-- Example data: the submission of `exUser`'s alias with the correct
6-digit key. -/
def exP : Payload :=
  { email := some "a@a.com", mobile := none, token := [1, 2, 3, 4, 5, 6] }

/-- Example data: a world whose store holds a fresh active token with the
submitted key, but no user for the submitted alias. -/
def exWnoUser : W :=
  { users := [], tokens := [exTok], now := 10, persistOk := true }

/-- Example data: a world where the user exists and a fresh active token
with the submitted key exists, but its type is VERIFY, so the AUTH lookup
finds nothing. -/
def exWwrongType : W :=
  { users := [exUser], tokens := [{ exTok with ttype := .VERIFY }],
    now := 10, persistOk := true }

theorem djangoGet_ok_iff {α : Type} (p : α → Bool) (xs : List α)
    (missing : PyErr) (x : α) :
    djangoGet p xs missing = .ok x ↔ xs.filter p = [x] := by
  unfold djangoGet
  rcases h : xs.filter p with _ | ⟨a, _ | ⟨b, l⟩⟩ <;> simp

theorem filter_singleton_mem {α : Type} {f : α → Bool} {l : List α} {x : α}
    (h : l.filter f = [x]) : x ∈ l ∧ f x = true := by
  have hx : x ∈ l.filter f := by rw [h]; exact List.mem_singleton_self x
  exact List.mem_filter.mp hx

theorem filter_eq_singleton_of_le_one {α : Type} {f : α → Bool}
    {l : List α} {x : α} (hmem : x ∈ l) (hfx : f x = true)
    (hle : (l.filter f).length ≤ 1) : l.filter f = [x] := by
  have hx : x ∈ l.filter f := List.mem_filter.mpr ⟨hmem, hfx⟩
  rcases h : l.filter f with _ | ⟨a, _ | ⟨b, t⟩⟩
  · rw [h] at hx; cases hx
  · rw [h] at hx
    rcases List.mem_singleton.mp hx with rfl
    rfl
  · rw [h] at hle; simp at hle

theorem filter_stronger_singleton {α : Type} {f g : α → Bool} {l : List α}
    {x : α} (himp : ∀ y, g y = true → f y = true) (hf : l.filter f = [x])
    (hgx : g x = true) : l.filter g = [x] := by
  induction l with
  | nil => simp at hf
  | cons a t ih =>
    by_cases hfa : f a = true
    · rw [List.filter_cons_of_pos hfa] at hf
      have ha : a = x := by
        have := hf
        injection this with h1 h2
      subst ha
      have htnil : t.filter f = [] := by
        have := hf
        injection this with h1 h2
      rw [List.filter_cons_of_pos hgx]
      have : t.filter g = [] := by
        rw [List.filter_eq_nil_iff] at htnil ⊢
        intro b hb hgb
        exact htnil b hb (himp b hgb)
      rw [this]
    · rw [List.filter_cons_of_neg hfa] at hf
      have hga : ¬ g a = true := fun hga => hfa (himp a hga)
      rw [List.filter_cons_of_neg hga]
      exact ih hf

theorem authValidate_ok {st : Settings} {w : W} {p : Payload} {v : User}
    (h : (authValidate st w p).1 = .ok v) :
    (authValidateBody st w p).1 = .ok v := by
  unfold authValidate at h
  rcases hb : authValidateBody st w p with ⟨res, w1⟩
  rw [hb] at h
  rcases res with e | u
  · rcases e with m | _ | _ | _ | _ | _ <;> simp at h
  · simpa using h

theorem verifyValidate_ok {st : Settings} {w : W} {uid : Option Nat}
    {p : Payload} {v : User}
    (h : (verifyValidate st w uid p).1 = .ok v) :
    (verifyValidateBody st w uid p).1 = .ok v := by
  unfold verifyValidate at h
  rcases hb : verifyValidateBody st w uid p with ⟨res, w1⟩
  rw [hb] at h
  rcases res with e | u
  · rcases e with m | _ | _ | _ | _ | _ <;> simp at h
  · simpa using h

theorem changeValidate_ok {st : Settings} {w : W} {uid : Option Nat}
    {p : Payload} {v : User}
    (h : (changeValidate st w uid p).1 = .ok v) :
    (changeValidateBody st w uid p).1 = .ok v := by
  unfold changeValidate at h
  rcases hb : changeValidateBody st w uid p with ⟨res, w1⟩
  rw [hb] at h
  rcases res with e | u
  · rcases e with m | _ | _ | _ | _ | _ <;> simp at h
  · simpa using h

theorem abstractCallbackValidate_shape {st : Settings} {p p1 : Payload}
    (h : abstractCallbackValidate st p = .ok p1) :
    p1.email = p.email ∧ p1.mobile.isSome = p.mobile.isSome ∧
      p1.token = p.token := by
  unfold abstractCallbackValidate at h
  split at h
  next hm => cases h; simp [hm]
  next m hm =>
    split at h
    next hs =>
      split at h
      next e hc => cases h
      next m2 hc =>
        split at h
        next he => cases h; simp [hm]
        next he => cases h
    next hs =>
      split at h
      next he => cases h; simp [hm]
      next he => cases h

/-- C10: `clear_mobile_number` is a partial function: for every input
string that becomes empty once whitespace, hyphens and parentheses are
removed, the `mobile[0]` subscript is taken on an empty string and raises
`IndexError` instead of returning a normalised value or a validation
error. -/
theorem clear_mobile_number_index_error_on_effectively_empty
    (s : String) (h : stripChars s = "") :
    clear_mobile_number s = .error .indexError := by
  unfold clear_mobile_number
  rw [h]

/-- Witness for C10 at the concrete inputs `"()"` and `"-"`. -/
theorem clear_mobile_number_index_error_witness :
    clear_mobile_number "()" = .error .indexError ∧
    clear_mobile_number "-" = .error .indexError :=
  ⟨clear_mobile_number_index_error_on_effectively_empty "()" (by decide),
   clear_mobile_number_index_error_on_effectively_empty "-" (by decide)⟩

/-- C7: for every submitted mobile number that does not strip to the empty
string, `clear_mobile_number` removes all whitespace, hyphens and
parentheses and prepends `+` exactly when the result does not already
start with `+`; the serializer-level mobile check
(`AbstractBaseCallbackTokenSerializer.validate`, standardisation on) then
accepts exactly when the normalised value matches `^\+[1-9]\d{1,14}$` and
raises the phone-format `ValidationError` otherwise. -/
theorem mobile_normalization_and_regex_gate
    (st : Settings) (p : Payload) (m : String)
    (hstd : st.mobileStandardise = true)
    (hm : p.mobile = some m)
    (hne : stripChars m ≠ "") :
    clear_mobile_number m = .ok (normalizeMobileSpec m) ∧
    (e164 (normalizeMobileSpec m) = false →
      abstractCallbackValidate st p =
        .error (.validationError .phoneFormat)) ∧
    (e164 (normalizeMobileSpec m) = true →
      abstractCallbackValidate st p =
        .ok { p with mobile := some (normalizeMobileSpec m) }) := by
  have hclear : clear_mobile_number m = .ok (normalizeMobileSpec m) := by
    unfold clear_mobile_number normalizeMobileSpec
    rcases hd : (stripChars m).data with _ | ⟨c, rest⟩
    · exact absurd (String.ext (show (stripChars m).data = ("" : String).data
        from hd)) hne
    · by_cases hc : c = '+'
      · subst hc
        simp [hd]
      · simp [hd, hc]
  refine ⟨hclear, ?_, ?_⟩ <;> intro he
  · obtain ⟨pe, pm, pt⟩ := p
    simp only at hm
    subst hm
    unfold abstractCallbackValidate
    simp [hstd, hclear, he]
  · obtain ⟨pe, pm, pt⟩ := p
    simp only at hm
    subst hm
    unfold abstractCallbackValidate
    simp [hstd, hclear, he]

/-- Witness for C7 at the concrete input `"(555) 123-4567"` carrying no
country code: stripping yields `5551234567`, a `+` is prepended, and the
result fails the E.164 regex (leading digit 5 is fine, so use a value that
passes, and one that fails on a leading zero). -/
theorem mobile_normalization_witness :
    clear_mobile_number "+1 (555) 123-4567" = .ok "+15551234567" ∧
    abstractCallbackValidate exS
        { email := none, mobile := some "+1 (555) 123-4567",
          token := [1, 2, 3, 4, 5, 6] } =
      .ok { email := none, mobile := some "+15551234567",
            token := [1, 2, 3, 4, 5, 6] } ∧
    abstractCallbackValidate exS
        { email := none, mobile := some "(055) 123-4567",
          token := [1, 2, 3, 4, 5, 6] } =
      .error (.validationError .phoneFormat) := by
  have h1 := mobile_normalization_and_regex_gate exS
    { email := none, mobile := some "+1 (555) 123-4567",
      token := [1, 2, 3, 4, 5, 6] } "+1 (555) 123-4567"
    rfl rfl (by decide)
  have h2 := mobile_normalization_and_regex_gate exS
    { email := none, mobile := some "(055) 123-4567",
      token := [1, 2, 3, 4, 5, 6] } "(055) 123-4567"
    rfl rfl (by decide)
  refine ⟨?_, ?_, ?_⟩
  · have := h1.1
    rwa [show normalizeMobileSpec "+1 (555) 123-4567" = "+15551234567"
      from by decide] at this
  · have := h1.2.2 (by decide)
    rwa [show normalizeMobileSpec "+1 (555) 123-4567" = "+15551234567"
      from by decide] at this
  · exact h2.2.1 (by decide)

/-- C6: `validate_alias` rejects every payload carrying both aliases and
every payload carrying neither, and returns the configured field name with
the value when exactly one is present; moreover, for both-or-neither
payloads, each of the three token-submission validation bodies fails with
an outcome that is the same for every user directory and token store — the
failure happens before any user-directory or `CallbackToken` access. -/
theorem alias_resolution_exclusive_and_store_independent
    (p : Payload) :
    (∀ e m, p.email = some e → p.mobile = some m →
        validate_alias p = .error (.validationError .invalidInput)) ∧
    (p.email = none → p.mobile = none →
        validate_alias p = .error (.validationError .invalidInput)) ∧
    (∀ e, p.email = some e → p.mobile = none →
        validate_alias p = .ok (.EMAIL, e)) ∧
    (∀ m, p.email = none → p.mobile = some m →
        validate_alias p = .ok (.MOBILE, m)) ∧
    (p.email.isSome = p.mobile.isSome →
      ∀ st w w' uid,
        ((authValidateBody st w p).1 = (authValidateBody st w' p).1 ∧
          ∀ v, (authValidateBody st w p).1 ≠ .ok v) ∧
        ((verifyValidateBody st w uid p).1 =
            (verifyValidateBody st w' uid p).1 ∧
          ∀ v, (verifyValidateBody st w uid p).1 ≠ .ok v) ∧
        ((changeValidateBody st w uid p).1 =
            (changeValidateBody st w' uid p).1 ∧
          ∀ v, (changeValidateBody st w uid p).1 ≠ .ok v)) := by
  refine ⟨?_, ?_, ?_, ?_, ?_⟩
  · intro e m he hm
    unfold validate_alias
    rw [he, hm]
  · intro he hm
    unfold validate_alias
    rw [he, hm]
  · intro e he hm
    unfold validate_alias
    rw [he, hm]
  · intro m he hm
    unfold validate_alias
    rw [he, hm]
  · intro hbn st w w' uid
    have key : ∀ p1, abstractCallbackValidate st p = .ok p1 →
        validate_alias p1 = .error (.validationError .invalidInput) := by
      intro p1 habs
      obtain ⟨he, hm, -⟩ := abstractCallbackValidate_shape habs
      unfold validate_alias
      rcases h1 : p1.email with _ | e <;> rcases h2 : p1.mobile with _ | mv
      · rfl
      · exfalso
        rw [h1] at he
        rw [h2] at hm
        rw [← he, ← hm] at hbn
        simp at hbn
      · exfalso
        rw [h1] at he
        rw [h2] at hm
        rw [← he, ← hm] at hbn
        simp at hbn
      · rfl
    have hA : ∀ w0, authValidateBody st w0 p =
        ((match abstractCallbackValidate st p with
          | .error e => Except.error e
          | .ok _ => Except.error (.validationError .invalidInput)), w0) := by
      intro w0
      unfold authValidateBody
      rcases habs : abstractCallbackValidate st p with e | p1
      · rfl
      · dsimp only
        rw [key p1 habs]
    have hV : ∀ w0, verifyValidateBody st w0 uid p =
        ((match abstractCallbackValidate st p with
          | .error e => Except.error e
          | .ok _ => Except.error (.validationError .invalidInput)), w0) := by
      intro w0
      unfold verifyValidateBody
      rcases habs : abstractCallbackValidate st p with e | p1
      · rfl
      · dsimp only
        rw [key p1 habs]
    have hC : ∀ w0, changeValidateBody st w0 uid p =
        ((match abstractCallbackValidate st p with
          | .error e => Except.error e
          | .ok _ => Except.error (.validationError .invalidInput)), w0) := by
      intro w0
      unfold changeValidateBody
      rcases habs : abstractCallbackValidate st p with e | p1
      · rfl
      · dsimp only
        rw [key p1 habs]
    refine ⟨⟨?_, ?_⟩, ⟨?_, ?_⟩, ⟨?_, ?_⟩⟩
    · rw [hA w, hA w']
    · rw [hA w]
      rcases abstractCallbackValidate st p with e | p1 <;> simp
    · rw [hV w, hV w']
    · rw [hV w]
      rcases abstractCallbackValidate st p with e | p1 <;> simp
    · rw [hC w, hC w']
    · rw [hC w]
      rcases abstractCallbackValidate st p with e | p1 <;> simp

/-- Witness for C6: a payload with both aliases set is rejected by
`validate_alias`, and the AUTH body fails identically on an empty world
and on the populated example world. -/
theorem alias_resolution_witness :
    validate_alias
        { email := some "a@a.com", mobile := some "+15551234567",
          token := [1, 2, 3, 4, 5, 6] } =
      .error (.validationError .invalidInput) ∧
    (authValidateBody exS
        { users := [], tokens := [], now := 0, persistOk := true }
        { email := some "a@a.com", mobile := some "+15551234567",
          token := [1, 2, 3, 4, 5, 6] }).1 =
      (authValidateBody exS exW
        { email := some "a@a.com", mobile := some "+15551234567",
          token := [1, 2, 3, 4, 5, 6] }).1 :=
  ⟨(alias_resolution_exclusive_and_store_independent _).1
      "a@a.com" "+15551234567" rfl rfl,
   (((alias_resolution_exclusive_and_store_independent _).2.2.2.2
      rfl exS _ exW none).1).1⟩

/-- C2 (code bug): successful AUTH validation does not deactivate the
matched `CallbackToken` — `CallbackTokenAuthSerializer.validate` returns
the user without touching `is_active` — so an immediate second submission
of the same alias and key is accepted again, and the token is still active
afterwards.  Evaluated at the concrete scenario: `exUser` with the fresh
active token `exTok`, submitting the correct key twice in a row. -/
theorem auth_replay_double_acceptance :
    (runAuth exS exW exP).1 = .ok exUser ∧
    (runAuth exS exW exP).2 = exW ∧
    (runAuth exS (runAuth exS exW exP).2 exP).1 = .ok exUser ∧
    (runAuth exS (runAuth exS exW exP).2 exP).2 = exW ∧
    exW.tokens.all (fun t => t.is_active) = true :=
  ⟨rfl, rfl, rfl, rfl, rfl⟩

/-- C3 counterexample: two AUTH submissions that both fail the token
checks are distinguishable by their error outcome.  In the first world the
alias has no user (the store still holds a fresh active token with the
submitted key, so the field stage passes); in the second the user exists
but no AUTH-typed active token matches.  The former fails with
`Invalid user alias parameters provided.`, the latter with
`Invalid alias parameters provided.` — two different messages. -/
theorem auth_failure_outcomes_distinguishable :
    (runAuth exS exWnoUser exP).1 =
      .error (.validationError .invalidUserAliasParams) ∧
    (runAuth exS exWwrongType exP).1 =
      .error (.validationError .invalidAliasParams) ∧
    Msg.invalidUserAliasParams ≠ Msg.invalidAliasParams := by
  refine ⟨rfl, rfl, by decide⟩

/-- C4 counterexample: for a no-op CHANGE request (the request user's
current email equals the submitted alias, here both `a@a.com` in the
`exUser` scenario), `AbstractBaseAliasChangeSerializer.validate` does not
produce the no-op validation rejection: it raises `AttributeError` at
`request.get(self.alias_type)` (the HTTP request object has no `get`)
before any comparison, so no `ValidationError` of any message reaches the
caller from this serializer. -/
theorem noop_change_request_attribute_error :
    changeRequestValidate (some exUser) .EMAIL = .error .attributeError :=
  rfl

/-- C8: `AbstractBaseAliasAuthenticationSerializer.validate` on an alias
with no existing case-insensitive user match: with
`PASSWORDLESS_REGISTER_NEW_USERS` on, a user holding the alias is created
with an unusable password and the request succeeds; with it off, the
request is rejected with the no-account message and the user directory is
left unchanged. -/
theorem register_new_users_controls_account_creation
    (st : Settings) (w : W) (kind : AliasKind) (a : String)
    (hNone : w.users.filter (userAliasMatches kind a) = []) :
    (st.registerNewUsers = true →
      ∃ u, aliasAuthValidate st w kind (some a) =
          (.ok u, { w with users := w.users ++ [u] }) ∧
        aliasValue kind u = some a ∧ u.hasUsablePassword = false ∧
        u.is_active = true) ∧
    (st.registerNewUsers = false →
      aliasAuthValidate st w kind (some a) =
        (.error (.validationError .noAccount), w)) := by
  constructor <;> intro hreg <;>
    simp only [aliasAuthValidate, hNone, hreg, if_true, if_false]
  · refine ⟨newUser (freshId w.users) kind a, ?_, ?_, ?_, ?_⟩
    · unfold aliasAuthAfterUser newUser
      cases kind <;> simp [setAlias]
    · cases kind <;> simp [newUser, setAlias, aliasValue]
    · cases kind <;> simp [newUser, setAlias]
    · cases kind <;> simp [newUser, setAlias]
  · rfl

/-- Witness for C8 with an empty directory and the alias `x@y.z`: the
register-on run creates the user, the register-off run rejects. -/
theorem register_new_users_witness :
    (∃ u, aliasAuthValidate exS
        { users := [], tokens := [], now := 0, persistOk := true }
        .EMAIL (some "x@y.z") =
          (.ok u, { users := [u], tokens := [], now := 0,
                    persistOk := true }) ∧
      aliasValue .EMAIL u = some "x@y.z" ∧ u.hasUsablePassword = false ∧
      u.is_active = true) ∧
    aliasAuthValidate { exS with registerNewUsers := false }
        { users := [], tokens := [], now := 0, persistOk := true }
        .EMAIL (some "x@y.z") =
      (.error (.validationError .noAccount),
       { users := [], tokens := [], now := 0, persistOk := true }) := by
  constructor
  · obtain ⟨u, hu, h1, h2, h3⟩ :=
      (register_new_users_controls_account_creation exS
        { users := [], tokens := [], now := 0, persistOk := true }
        .EMAIL "x@y.z" (by decide)).1 rfl
    exact ⟨u, hu, h1, h2, h3⟩
  · exact (register_new_users_controls_account_creation
      { exS with registerNewUsers := false }
      { users := [], tokens := [], now := 0, persistOk := true }
      .EMAIL "x@y.z" (by decide)).2 rfl

/-- C4 amended: the no-op rejection (submitted alias equal to the user's
current alias) is enforced in `CallbackTokenChangeSerializer.validate`,
which raises the specific already-same message; in
`AbstractBaseAliasChangeSerializer.validate` the check is not enforced:
for every active request user the `request.get(self.alias_type)` access
raises `AttributeError` before the comparison, so that serializer never
produces the no-op validation rejection.  (Test mode and a correct token
length isolate the no-op guard from the token checks; the guard itself
runs before any token handling.) -/
theorem noop_change_rejected_only_in_token_change_serializer
    (st : Settings) (w : W) (p : Payload) (uid : Option Nat) (e : String)
    (u : User)
    (hTest : st.testMode = true)
    (hLen : p.token.length = st.tokenLength)
    (hpe : p.email = some e) (hpm : p.mobile = none)
    (hUser : w.users.filter (fun v => uid == some v.id) = [u])
    (hSame : u.email = some e) :
    (runChange st w uid p).1 =
      .error (.validationError (.alreadySame .EMAIL)) ∧
    ∀ v : User, v.is_active = true →
      changeRequestValidate (some v) .EMAIL = .error .attributeError := by
  constructor
  · obtain ⟨pe, pm, pt⟩ := p
    simp only at hpe hpm hLen
    subst hpe
    subst hpm
    have hbody : changeValidateBody st w uid
        { email := some e, mobile := none, token := pt } =
        (.error (.validationError (.alreadySame .EMAIL)), w) := by
      unfold changeValidateBody abstractCallbackValidate validate_alias
      dsimp only
      rw [(djangoGet_ok_iff _ _ _ _).mpr hUser]
      dsimp only
      simp [aliasValue, hSame]
    unfold runChange tokenFieldStage
    simp only [hLen, bne_self_eq_false, Bool.false_eq_true, if_false,
      hTest, if_true]
    unfold changeValidate
    rw [hbody]
  · intro v hv
    unfold changeRequestValidate
    simp [hv]

/-- Witness for the amended C4 in the `exUser` scenario: submitting
`exUser`'s own email as the CHANGE alias in test mode is rejected with the
already-same message, and the change-request serializer attribute-errors
on `exUser`. -/
theorem noop_change_rejected_witness :
    (runChange { exS with testMode := true } exW (some 1) exP).1 =
      .error (.validationError (.alreadySame .EMAIL)) ∧
    changeRequestValidate (some exUser) .EMAIL = .error .attributeError := by
  have h := noop_change_rejected_only_in_token_change_serializer
    { exS with testMode := true } exW exP (some 1) "a@a.com" exUser
    rfl rfl rfl rfl (by decide) rfl
  exact ⟨h.1, h.2 exUser rfl⟩

theorem djangoGet_error {α : Type} {p : α → Bool} {xs : List α}
    {missing : PyErr} {e : PyErr}
    (h : djangoGet p xs missing = .error e) :
    e = missing ∨ e = .multipleObjectsReturned := by
  unfold djangoGet at h
  rcases hf : xs.filter p with _ | ⟨a, _ | _⟩ <;> rw [hf] at h <;>
    simp_all

theorem authAfterToken_ne_user_dne (st : Settings) (w : W) (user : User)
    (token : CallbackToken) (hmem : user ∈ w.users) :
    (authAfterToken st w user token).1 ≠ .error .userDoesNotExist := by
  unfold authAfterToken
  by_cases hg : (token.userId == user.id) = true
  · rw [if_pos hg]
    by_cases ha : (!user.is_active) = true
    · rw [if_pos ha]; simp
    · rw [if_neg ha]
      by_cases hmk : (st.markEmailVerified || st.markMobileVerified) = true
      · rw [if_pos hmk]
        have hg2 : (user.id == token.userId) = true := by
          rw [beq_iff_eq] at hg ⊢
          exact hg.symm
        have hmemf : user ∈ w.users.filter (fun v => v.id == token.userId) :=
          List.mem_filter.mpr ⟨hmem, hg2⟩
        unfold djangoGet
        rcases hf : w.users.filter (fun v => v.id == token.userId) with
          _ | ⟨a, _ | ⟨b, l⟩⟩
        · rw [hf] at hmemf
          cases hmemf
        · rw [hf]
          dsimp only
          by_cases hv : (verify_user_alias w a token).1 = true
          · rw [if_pos hv]; simp
          · rw [if_neg hv]; simp
        · rw [hf]; simp
      · rw [if_neg hmk]; simp
  · rw [if_neg hg]; simp

/-- C3 amended: within `CallbackTokenAuthSerializer.validate`, every
failure surfacing as a `ValidationError` carries one of exactly two
messages; all failures raised inside the body (no matching active token,
ownership mismatch, disabled user, verification-marking failure, denylist
hit) collapse to the generic `Invalid alias parameters provided.` when a
user exists for the alias, while a missing user for the alias yields the
distinct `Invalid user alias parameters provided.` — so failing runs are
not all indistinguishable (an expired token additionally fails at the
field stage with its own message, see the counterexample theorem). -/
theorem auth_failure_messages_collapse_except_missing_user
    (st : Settings) (w : W) (p : Payload) :
    (∀ m, (authValidate st w p).1 = .error (.validationError m) →
        m = .invalidAliasParams ∨ m = .invalidUserAliasParams) ∧
    (∀ e, p.email = some e → p.mobile = none →
        w.users.filter (userAliasMatches .EMAIL e) = [] →
        (authValidate st w p).1 =
          .error (.validationError .invalidUserAliasParams)) ∧
    (∀ e u, p.email = some e → p.mobile = none →
        w.users.filter (userAliasMatches .EMAIL e) = [u] →
        ∀ m, (authValidate st w p).1 = .error (.validationError m) →
          m = .invalidAliasParams) := by
  refine ⟨?_, ?_, ?_⟩
  · intro m hm
    unfold authValidate at hm
    rcases hb : authValidateBody st w p with ⟨res, w1⟩
    rw [hb] at hm
    rcases res with e | v
    · rcases e with m2 | _ | _ | _ | _ | _ <;> simp_all
    · simp_all
  · intro e hpe hpm hNone
    obtain ⟨pe, pm, pt⟩ := p
    simp only at hpe hpm
    subst hpe
    subst hpm
    have hbody : authValidateBody st w
        { email := some e, mobile := none, token := pt } =
        (.error .userDoesNotExist, w) := by
      unfold authValidateBody abstractCallbackValidate validate_alias
      dsimp only
      have hdg : djangoGet (userAliasMatches .EMAIL e) w.users
          .userDoesNotExist = .error .userDoesNotExist := by
        unfold djangoGet
        rw [hNone]
      rw [hdg]
    unfold authValidate
    rw [hbody]
  · intro e u hpe hpm hOne m hm
    obtain ⟨pe, pm, pt⟩ := p
    simp only at hpe hpm
    subst hpe
    subst hpm
    have hmem := (filter_singleton_mem hOne).1
    have hne : (authValidateBody st w
        { email := some e, mobile := none, token := pt }).1 ≠
        .error .userDoesNotExist := by
      unfold authValidateBody abstractCallbackValidate validate_alias
      dsimp only
      rw [(djangoGet_ok_iff _ _ _ _).mpr hOne]
      dsimp only
      by_cases ht : st.testMode = true
      · rw [if_pos ht]
        by_cases hc :
            st.testCodeIncorrect.contains (intOfKey pt) = true
        · rw [if_pos hc]; simp
        · rw [if_neg hc]
          exact authAfterToken_ne_user_dne _ _ _ _ hmem
      · rw [if_neg ht]
        rcases hdg : djangoGet
            (fun t => t.userId == u.id && t.key == pt &&
                      t.ttype == TokenType.AUTH && t.is_active)
            w.tokens .tokenDoesNotExist with e2 | tok
        · rw [hdg]
          rcases djangoGet_error hdg with rfl | rfl <;> simp
        · rw [hdg]
          exact authAfterToken_ne_user_dne _ _ _ _ hmem
    unfold authValidate at hm
    rcases hb : authValidateBody st w
        { email := some e, mobile := none, token := pt } with ⟨res, w1⟩
    rw [hb] at hm hne
    rcases res with e2 | v
    · rcases e2 with m2 | _ | _ | _ | _ | _ <;> simp_all
    · simp_all

/-- Witness for the amended C3: in the two concrete failing worlds of the
counterexample theorem, the message is the user-specific one exactly when
the alias has no user, and the generic one when it has one. -/
theorem auth_failure_messages_witness :
    (authValidate exS exWnoUser exP).1 =
      .error (.validationError .invalidUserAliasParams) ∧
    ∀ m, (authValidate exS exWwrongType exP).1 =
        .error (.validationError m) → m = .invalidAliasParams := by
  constructor
  · exact (auth_failure_messages_collapse_except_missing_user exS
      exWnoUser exP).2.1 "a@a.com" rfl rfl (by decide)
  · exact fun m hm =>
      (auth_failure_messages_collapse_except_missing_user exS
        exWwrongType exP).2.2 "a@a.com" exUser rfl rfl (by decide) m hm

/-- C9: with a persistence failure making the alias-mutating utilities
return false, the VERIFY and CHANGE token-submission serializers still
succeed and return the user (the failure is only logged), while the AUTH
serializer (verification marking enabled) rejects — the internal
`Error validating user alias.` is collapsed by its catch to the generic
message.  Each serializer is given its matching active token. -/
theorem verify_failure_tolerated_in_verify_change_rejected_in_auth
    (st : Settings) (w : W) (pA pC : Payload) (uid : Option Nat)
    (e e2 : String) (u : User) (tA tV tC : CallbackToken)
    (hTest : st.testMode = false)
    (hMark : st.markEmailVerified = true)
    (hPersist : w.persistOk = false)
    (hpAe : pA.email = some e) (hpAm : pA.mobile = none)
    (hpCe : pC.email = some e2) (hpCm : pC.mobile = none)
    (hUserA : w.users.filter (userAliasMatches .EMAIL e) = [u])
    (hRefetch : w.users.filter (fun v => v.id == tA.userId) = [u])
    (hUserV : w.users.filter
        (fun v => uid == some v.id && userAliasMatches .EMAIL e v) = [u])
    (hUserC : w.users.filter (fun v => uid == some v.id) = [u])
    (hTokA : w.tokens.filter
        (fun t => t.userId == u.id && t.key == pA.token &&
                  t.ttype == TokenType.AUTH && t.is_active) = [tA])
    (hTokV : w.tokens.filter
        (fun t => t.userId == u.id && t.key == pA.token &&
                  t.ttype == TokenType.VERIFY && t.is_active) = [tV])
    (hTokC : w.tokens.filter
        (fun t => t.userId == u.id && t.key == pC.token &&
                  t.ttype == TokenType.CHANGE && t.is_active) = [tC])
    (htAu : tA.userId = u.id) (htVu : tV.userId = u.id)
    (htCu : tC.userId = u.id) (htCa : tC.toAlias = e2)
    (hNoop : u.email ≠ some e2)
    (hActive : u.is_active = true) :
    (authValidate st w pA).1 =
      .error (.validationError .invalidAliasParams) ∧
    (verifyValidate st w uid pA).1 = .ok u ∧
    (changeValidate st w uid pC).1 = .ok u := by
  obtain ⟨pae, pam, pat⟩ := pA
  obtain ⟨pce, pcm, pct⟩ := pC
  simp only at hpAe hpAm hpCe hpCm hTokA hTokV hTokC
  subst hpAe
  subst hpAm
  subst hpCe
  subst hpCm
  refine ⟨?_, ?_, ?_⟩
  · have hbody : authValidateBody st w
        { email := some e, mobile := none, token := pat } =
        (.error (.validationError .errorValidatingAlias), w) := by
      unfold authValidateBody abstractCallbackValidate validate_alias
      dsimp only
      rw [(djangoGet_ok_iff _ _ _ _).mpr hUserA]
      dsimp only
      rw [if_neg (by simp [hTest])]
      rw [(djangoGet_ok_iff _ _ _ _).mpr hTokA]
      dsimp only
      unfold authAfterToken
      rw [if_pos (by rw [beq_iff_eq]; exact htAu)]
      rw [if_neg (by simp [hActive])]
      rw [if_pos (by simp [hMark])]
      rw [(djangoGet_ok_iff _ _ _ _).mpr hRefetch]
      dsimp only
      simp [verify_user_alias, hPersist]
    unfold authValidate
    rw [hbody]
  · have hbody : verifyValidateBody st w uid
        { email := some e, mobile := none, token := pat } = (.ok u, w) := by
      unfold verifyValidateBody abstractCallbackValidate validate_alias
      dsimp only
      rw [(djangoGet_ok_iff _ _ _ _).mpr hUserV]
      dsimp only
      rw [if_neg (by simp [hTest])]
      rw [(djangoGet_ok_iff _ _ _ _).mpr hTokV]
      dsimp only
      unfold verifyAfterToken
      rw [if_pos (by rw [beq_iff_eq]; exact htVu)]
      simp [verify_user_alias, hPersist]
    unfold verifyValidate
    rw [hbody]
  · have hbody : changeValidateBody st w uid
        { email := some e2, mobile := none, token := pct } =
        (.ok u, w) := by
      unfold changeValidateBody abstractCallbackValidate validate_alias
      dsimp only
      rw [(djangoGet_ok_iff _ _ _ _).mpr hUserC]
      dsimp only
      rw [if_neg (by simpa [aliasValue] using hNoop)]
      rw [if_neg (by simp [hTest])]
      rw [(djangoGet_ok_iff _ _ _ _).mpr hTokC]
      dsimp only
      unfold changeAfterToken
      rw [if_pos (by simp [htCu, htCa])]
      simp [change_user_alias, hPersist]
    unfold changeValidate
    rw [hbody]

theorem authValidate_pass {st : Settings} {w : W} {p : Payload} {v : User}
    {w1 : W} (h : authValidateBody st w p = (.ok v, w1)) :
    authValidate st w p = (.ok v, w1) := by
  unfold authValidate
  rw [h]

theorem verifyValidate_pass {st : Settings} {w : W} {uid : Option Nat}
    {p : Payload} {v : User} {w1 : W}
    (h : verifyValidateBody st w uid p = (.ok v, w1)) :
    verifyValidate st w uid p = (.ok v, w1) := by
  unfold verifyValidate
  rw [h]

theorem changeValidate_pass {st : Settings} {w : W} {uid : Option Nat}
    {p : Payload} {v : User} {w1 : W}
    (h : changeValidateBody st w uid p = (.ok v, w1)) :
    changeValidate st w uid p = (.ok v, w1) := by
  unfold changeValidate
  rw [h]

theorem authBody_denylist_no_ok {st : Settings} {w : W} {p : Payload}
    {v : User} (hTest : st.testMode = true)
    (hc : st.testCodeIncorrect.contains (intOfKey p.token) = true)
    (hok : (authValidateBody st w p).1 = .ok v) : False := by
  unfold authValidateBody at hok
  rcases habs : abstractCallbackValidate st p with e1 | p1 <;>
    rw [habs] at hok
  · simp at hok
  · obtain ⟨-, -, htok⟩ := abstractCallbackValidate_shape habs
    dsimp only at hok
    rcases hva : validate_alias p1 with e1 | ⟨kind, av⟩ <;> rw [hva] at hok
    · simp at hok
    · dsimp only at hok
      rcases hdg : djangoGet (userAliasMatches kind av) w.users
          .userDoesNotExist with e1 | user <;> rw [hdg] at hok
      · simp at hok
      · dsimp only at hok
        rw [if_pos hTest] at hok
        rw [htok] at hok
        rw [if_pos hc] at hok
        simp at hok

theorem verifyBody_denylist_no_ok {st : Settings} {w : W}
    {uid : Option Nat} {p : Payload} {v : User} (hTest : st.testMode = true)
    (hc : st.testCodeIncorrect.contains (intOfKey p.token) = true)
    (hok : (verifyValidateBody st w uid p).1 = .ok v) : False := by
  unfold verifyValidateBody at hok
  rcases habs : abstractCallbackValidate st p with e1 | p1 <;>
    rw [habs] at hok
  · simp at hok
  · obtain ⟨-, -, htok⟩ := abstractCallbackValidate_shape habs
    dsimp only at hok
    rcases hva : validate_alias p1 with e1 | ⟨kind, av⟩ <;> rw [hva] at hok
    · simp at hok
    · dsimp only at hok
      rcases hdg : djangoGet
          (fun z => uid == some z.id && userAliasMatches kind av z)
          w.users .userDoesNotExist with e1 | user <;> rw [hdg] at hok
      · simp at hok
      · dsimp only at hok
        rw [if_pos hTest] at hok
        rw [htok] at hok
        rw [if_pos hc] at hok
        simp at hok

theorem changeBody_denylist_no_ok {st : Settings} {w : W}
    {uid : Option Nat} {p : Payload} {v : User} (hTest : st.testMode = true)
    (hc : st.testCodeIncorrect.contains (intOfKey p.token) = true)
    (hok : (changeValidateBody st w uid p).1 = .ok v) : False := by
  unfold changeValidateBody at hok
  rcases habs : abstractCallbackValidate st p with e1 | p1 <;>
    rw [habs] at hok
  · simp at hok
  · obtain ⟨-, -, htok⟩ := abstractCallbackValidate_shape habs
    dsimp only at hok
    rcases hva : validate_alias p1 with e1 | ⟨kind, av⟩ <;> rw [hva] at hok
    · simp at hok
    · dsimp only at hok
      rcases hdg : djangoGet (fun z => uid == some z.id) w.users
          .userDoesNotExist with e1 | user <;> rw [hdg] at hok
      · simp at hok
      · dsimp only at hok
        by_cases hsame : (aliasValue kind user == some av) = true
        · rw [if_pos hsame] at hok
          simp at hok
        · rw [if_neg hsame] at hok
          rw [if_pos hTest] at hok
          rw [htok] at hok
          rw [if_pos hc] at hok
          simp at hok

/-- C5: in test mode, for all three token-submission serializers, a token
whose integer value lies in the configured denylist of incorrect codes is
never accepted — for any world, payload and settings — and every other
token of the configured length is accepted with no `CallbackToken` store
lookup and no age check: the acceptance below holds with the token store
`w.tokens` and the clock `w.now` universally quantified and unconstrained,
because the serializers synthesize an unsaved token object instead of
querying the store. -/
theorem test_mode_denylist_and_storeless_acceptance
    (st : Settings) (w : W) (p : Payload) (uid : Option Nat) (e : String)
    (u : User)
    (hTest : st.testMode = true) :
    (st.testCodeIncorrect.contains (intOfKey p.token) = true →
      (∀ v, (runAuth st w p).1 ≠ .ok v) ∧
      (∀ v, (runVerify st w uid p).1 ≠ .ok v) ∧
      (∀ v, (runChange st w uid p).1 ≠ .ok v)) ∧
    (st.testCodeIncorrect.contains (intOfKey p.token) = false →
     p.token.length = st.tokenLength →
     p.email = some e → p.mobile = none →
      (st.markEmailVerified = false → st.markMobileVerified = false →
       w.users.filter (userAliasMatches .EMAIL e) = [u] →
       u.is_active = true →
        (runAuth st w p).1 = .ok u) ∧
      (w.users.filter
          (fun z => uid == some z.id && userAliasMatches .EMAIL e z) =
            [u] →
        (runVerify st w uid p).1 = .ok u) ∧
      (w.users.filter (fun z => uid == some z.id) = [u] →
       u.email ≠ some e →
        (runChange st w uid p).1 = .ok u)) := by
  constructor
  · intro hc
    refine ⟨?_, ?_, ?_⟩ <;> intro v hok
    · unfold runAuth at hok
      rcases hfs : tokenFieldStage st w p.token with e1 | u1 <;>
        rw [hfs] at hok
      · simp at hok
      · exact authBody_denylist_no_ok hTest hc (authValidate_ok hok)
    · unfold runVerify at hok
      rcases hfs : tokenFieldStage st w p.token with e1 | u1 <;>
        rw [hfs] at hok
      · simp at hok
      · exact verifyBody_denylist_no_ok hTest hc (verifyValidate_ok hok)
    · unfold runChange at hok
      rcases hfs : tokenFieldStage st w p.token with e1 | u1 <;>
        rw [hfs] at hok
      · simp at hok
      · exact changeBody_denylist_no_ok hTest hc (changeValidate_ok hok)
  · intro hc hLen hpe hpm
    obtain ⟨pe, pm, pt⟩ := p
    simp only at hpe hpm hLen hc
    subst hpe
    subst hpm
    have hfs : tokenFieldStage st w pt = .ok () := by
      unfold tokenFieldStage
      rw [if_neg (by simp [hLen])]
      rw [if_pos hTest]
    refine ⟨?_, ?_, ?_⟩
    · intro hm1 hm2 hUser hActive
      have hbody : authValidateBody st w
          { email := some e, mobile := none, token := pt } =
          (.ok u, w) := by
        unfold authValidateBody abstractCallbackValidate validate_alias
        dsimp only
        rw [(djangoGet_ok_iff _ _ _ _).mpr hUser]
        dsimp only
        rw [if_pos hTest]
        rw [if_neg (by rw [hc]; simp)]
        unfold authAfterToken
        rw [if_pos (by simp)]
        rw [if_neg (by simp [hActive])]
        rw [if_neg (by simp [hm1, hm2])]
      unfold runAuth
      rw [hfs]
      rw [authValidate_pass hbody]
    · intro hUser
      have hbody : ∃ w1, verifyValidateBody st w uid
          { email := some e, mobile := none, token := pt } =
          (.ok u, w1) := by
        unfold verifyValidateBody abstractCallbackValidate validate_alias
        dsimp only
        rw [(djangoGet_ok_iff _ _ _ _).mpr hUser]
        dsimp only
        rw [if_pos hTest]
        rw [if_neg (by rw [hc]; simp)]
        unfold verifyAfterToken
        rw [if_pos (by simp)]
        exact ⟨_, rfl⟩
      obtain ⟨w1, hbody⟩ := hbody
      unfold runVerify
      rw [hfs]
      rw [verifyValidate_pass hbody]
    · intro hUser hNoop
      have hbody : ∃ w1, changeValidateBody st w uid
          { email := some e, mobile := none, token := pt } =
          (.ok u, w1) := by
        unfold changeValidateBody abstractCallbackValidate validate_alias
        dsimp only
        rw [(djangoGet_ok_iff _ _ _ _).mpr hUser]
        dsimp only
        rw [if_neg (by simpa [aliasValue] using hNoop)]
        rw [if_pos hTest]
        rw [if_neg (by rw [hc]; simp)]
        unfold changeAfterToken
        rw [if_pos (by simp)]
        exact ⟨_, rfl⟩
      obtain ⟨w1, hbody⟩ := hbody
      unfold runChange
      rw [hfs]
      rw [changeValidate_pass hbody]

/-- C1: outside test mode (with the resolved user active and verification
marking off, so the token checks are isolated), an AUTH token submission
is accepted if and only if the store holds a `CallbackToken` of the
resolved user that is active, AUTH-typed, whose key equals the submitted
key as a digit string (same digits and length, list equality — no numeric
coercion), and whose age is within the configured TTL; in particular, when
every active token carrying the submitted key is older than the TTL,
validation fails regardless of key correctness.  The hypothesis `hKeys`
(at most one active token holds the submitted key) reflects the
determinism the single-object store lookups assume. -/
theorem auth_accepts_iff_active_fresh_matching_token
    (st : Settings) (w : W) (p : Payload) (e : String) (u : User)
    (hTest : st.testMode = false)
    (hMark1 : st.markEmailVerified = false)
    (hMark2 : st.markMobileVerified = false)
    (hEmail : p.email = some e) (hMobile : p.mobile = none)
    (hLen : p.token.length = st.tokenLength)
    (hUser : w.users.filter (userAliasMatches .EMAIL e) = [u])
    (hActive : u.is_active = true)
    (hKeys : (w.tokens.filter
        (fun t => t.is_active && t.key == p.token)).length ≤ 1) :
    ((∃ v, (runAuth st w p).1 = .ok v) ↔
      ∃ t ∈ w.tokens, t.userId = u.id ∧ t.ttype = TokenType.AUTH ∧
        t.key = p.token ∧ t.is_active = true ∧
        w.now - t.createdAt ≤ st.tokenExpireTime) ∧
    ((∀ t ∈ w.tokens, t.is_active = true → t.key = p.token →
        st.tokenExpireTime < w.now - t.createdAt) →
      ∀ v, (runAuth st w p).1 ≠ .ok v) := by
  obtain ⟨pe, pm, pt⟩ := p
  simp only at hEmail hMobile hLen hKeys
  subst hEmail
  subst hMobile
  have hiff : (∃ v, (runAuth st w ⟨some e, none, pt⟩).1 = .ok v) ↔
      ∃ t ∈ w.tokens, t.userId = u.id ∧ t.ttype = TokenType.AUTH ∧
        t.key = pt ∧ t.is_active = true ∧
        w.now - t.createdAt ≤ st.tokenExpireTime := by
    constructor
    · rintro ⟨v, hok⟩
      unfold runAuth at hok
      rcases hfs : tokenFieldStage st w pt with e1 | u1 <;> rw [hfs] at hok
      · simp at hok
      · have hage : validate_token_age st w pt = true := by
          unfold tokenFieldStage at hfs
          by_cases h1 : (pt.length != st.tokenLength) = true
          · rw [if_pos h1] at hfs; cases hfs
          · rw [if_neg h1] at hfs
            rw [if_neg (by simp [hTest])] at hfs
            by_cases h2 : validate_token_age st w pt = true
            · exact h2
            · rw [if_neg h2] at hfs; cases hfs
        obtain ⟨tk, hf1, hfresh⟩ :
            ∃ tk, w.tokens.filter
                (fun t => t.is_active && t.key == pt) = [tk] ∧
              w.now - tk.createdAt ≤ st.tokenExpireTime := by
          unfold validate_token_age at hage
          rcases hf : w.tokens.filter (fun t => t.is_active && t.key == pt)
            with _ | ⟨tk, _ | _⟩ <;> rw [hf] at hage
          · cases hage
          · exact ⟨tk, hf, of_decide_eq_true hage⟩
          · cases hage
        have hbody := authValidate_ok hok
        unfold authValidateBody abstractCallbackValidate validate_alias
          at hbody
        dsimp only at hbody
        rw [(djangoGet_ok_iff _ _ _ _).mpr hUser] at hbody
        dsimp only at hbody
        rw [if_neg (by simp [hTest])] at hbody
        rcases hdg : djangoGet
            (fun t => t.userId == u.id && t.key == pt &&
                      t.ttype == TokenType.AUTH && t.is_active)
            w.tokens .tokenDoesNotExist with e2 | tok <;> rw [hdg] at hbody
        · simp at hbody
        · have hfil2 := (djangoGet_ok_iff _ _ _ _).mp hdg
          obtain ⟨hmem, hpred⟩ := filter_singleton_mem hfil2
          simp only [Bool.and_eq_true, beq_iff_eq] at hpred
          obtain ⟨⟨⟨hp1, hp2⟩, hp3⟩, hp4⟩ := hpred
          have htk : tok = tk := by
            have hmf : tok ∈ w.tokens.filter
                (fun t => t.is_active && t.key == pt) := by
              refine List.mem_filter.mpr ⟨hmem, ?_⟩
              simp [hp4, hp2]
            rw [hf1] at hmf
            exact List.mem_singleton.mp hmf
          exact ⟨tok, hmem, hp1, hp3, hp2, hp4, htk ▸ hfresh⟩
    · rintro ⟨t, hmem, ht1, ht2, ht3, ht4, ht5⟩
      have hf1 : w.tokens.filter (fun z => z.is_active && z.key == pt) =
          [t] := by
        refine filter_eq_singleton_of_le_one hmem ?_ hKeys
        simp [ht4, ht3]
      have hage : validate_token_age st w pt = true := by
        unfold validate_token_age
        rw [hf1]
        exact decide_eq_true ht5
      have hfs : tokenFieldStage st w pt = .ok () := by
        unfold tokenFieldStage
        rw [if_neg (by simp [hLen])]
        rw [if_neg (by simp [hTest])]
        rw [if_pos hage]
      have hf2 : w.tokens.filter
          (fun z => z.userId == u.id && z.key == pt &&
                    z.ttype == TokenType.AUTH && z.is_active) = [t] := by
        refine filter_stronger_singleton ?_ hf1 ?_
        · intro y hy
          simp only [Bool.and_eq_true] at hy
          simp [hy.1.1.2, hy.2]
        · simp [ht1, ht2, ht3, ht4]
      have hbody : authValidateBody st w ⟨some e, none, pt⟩ =
          (.ok u, w) := by
        unfold authValidateBody abstractCallbackValidate validate_alias
        dsimp only
        rw [(djangoGet_ok_iff _ _ _ _).mpr hUser]
        dsimp only
        rw [if_neg (by simp [hTest])]
        rw [(djangoGet_ok_iff _ _ _ _).mpr hf2]
        dsimp only
        unfold authAfterToken
        rw [if_pos (by simp [ht1])]
        rw [if_neg (by simp [hActive])]
        rw [if_neg (by simp [hMark1, hMark2])]
      refine ⟨u, ?_⟩
      unfold runAuth
      rw [hfs]
      rw [authValidate_pass hbody]
  refine ⟨hiff, ?_⟩
  intro hstale v hok
  obtain ⟨t, hmem, -, -, ht3, ht4, ht5⟩ := hiff.mp ⟨v, hok⟩
  have := hstale t hmem ht4 ht3
  omega

/-- Witness for C1 in the `exUser`/`exTok` scenario, where the equivalence
holds and the store side is inhabited by `exTok`. -/
theorem auth_accepts_iff_witness :
    ((∃ v, (runAuth exS exW exP).1 = .ok v) ↔
      ∃ t ∈ exW.tokens, t.userId = exUser.id ∧ t.ttype = TokenType.AUTH ∧
        t.key = exP.token ∧ t.is_active = true ∧
        exW.now - t.createdAt ≤ exS.tokenExpireTime) ∧
    ((∀ t ∈ exW.tokens, t.is_active = true → t.key = exP.token →
        exS.tokenExpireTime < exW.now - t.createdAt) →
      ∀ v, (runAuth exS exW exP).1 ≠ .ok v) :=
  auth_accepts_iff_active_fresh_matching_token exS exW exP "a@a.com" exUser
    rfl rfl rfl rfl rfl rfl (by decide) rfl (by decide)

/-- Witness for C5: with the denylist `[0]` (the integer value of the
6-digit code 000000) and an empty token store, the denylisted code is
rejected on AUTH while any other 6-digit code is accepted by all three
serializers with no stored token at all. -/
theorem test_mode_witness :
    (runAuth { exS with testMode := true }
        { users := [exUser], tokens := [], now := 0, persistOk := true }
        { email := some "a@a.com", mobile := none,
          token := [0, 0, 0, 0, 0, 0] }).1 ≠ .ok exUser ∧
    (runAuth { exS with testMode := true }
        { users := [exUser], tokens := [], now := 0, persistOk := true }
        exP).1 = .ok exUser ∧
    (runVerify { exS with testMode := true }
        { users := [exUser], tokens := [], now := 0, persistOk := true }
        (some 1) exP).1 = .ok exUser ∧
    (runChange { exS with testMode := true }
        { users := [exUser], tokens := [], now := 0, persistOk := true }
        (some 1) { email := some "b@b.com", mobile := none,
                   token := [1, 2, 3, 4, 5, 6] }).1 = .ok exUser := by
  refine ⟨?_, ?_, ?_, ?_⟩
  · exact ((test_mode_denylist_and_storeless_acceptance _ _ _ (some 1)
      "a@a.com" exUser rfl).1 (by decide)).1 exUser
  · exact ((test_mode_denylist_and_storeless_acceptance _ _ _ (some 1)
      "a@a.com" exUser rfl).2 (by decide) rfl rfl rfl).1
      rfl rfl (by decide) rfl
  · exact ((test_mode_denylist_and_storeless_acceptance _ _ _ (some 1)
      "a@a.com" exUser rfl).2 (by decide) rfl rfl rfl).2.1 (by decide)
  · exact ((test_mode_denylist_and_storeless_acceptance _ _ _ (some 1)
      "b@b.com" exUser rfl).2 (by decide) rfl rfl rfl).2.2
      (by decide) (by decide)

/-- Witness for C9: a world with a persistence failure, holding `exUser`
and matching AUTH, VERIFY and CHANGE tokens. -/
theorem verify_failure_tolerated_witness :
    (authValidate { exS with markEmailVerified := true }
        { users := [exUser],
          tokens := [exTok, { exTok with ttype := .VERIFY },
            { exTok with ttype := .CHANGE, toAlias := "b@b.com" }],
          now := 10, persistOk := false } exP).1 =
      .error (.validationError .invalidAliasParams) ∧
    (verifyValidate { exS with markEmailVerified := true }
        { users := [exUser],
          tokens := [exTok, { exTok with ttype := .VERIFY },
            { exTok with ttype := .CHANGE, toAlias := "b@b.com" }],
          now := 10, persistOk := false } (some 1) exP).1 = .ok exUser ∧
    (changeValidate { exS with markEmailVerified := true }
        { users := [exUser],
          tokens := [exTok, { exTok with ttype := .VERIFY },
            { exTok with ttype := .CHANGE, toAlias := "b@b.com" }],
          now := 10, persistOk := false } (some 1)
        { email := some "b@b.com", mobile := none,
          token := [1, 2, 3, 4, 5, 6] }).1 = .ok exUser :=
  verify_failure_tolerated_in_verify_change_rejected_in_auth
    { exS with markEmailVerified := true }
    { users := [exUser],
      tokens := [exTok, { exTok with ttype := .VERIFY },
        { exTok with ttype := .CHANGE, toAlias := "b@b.com" }],
      now := 10, persistOk := false }
    exP
    { email := some "b@b.com", mobile := none,
      token := [1, 2, 3, 4, 5, 6] }
    (some 1) "a@a.com" "b@b.com" exUser exTok
    { exTok with ttype := .VERIFY }
    { exTok with ttype := .CHANGE, toAlias := "b@b.com" }
    rfl rfl rfl rfl rfl rfl rfl
    (by decide) (by decide) (by decide) (by decide)
    (by decide) (by decide) (by decide)
    rfl rfl rfl rfl (by decide) rfl
